import Mathlib

/-!
# Verification of the TeamsFx V3 project-migration engine

Shallow embedding of `packages/fx-core/src/core/middleware/projectMigratorV3.ts`
(together with the `AppYmlGenerator` class it uses) and proofs about the
claims of the specification of the migration subsystem.

Conventions of the embedding:
* TypeScript `async` functions that can `throw`/reject are embedded as
  functions returning `Except FxError _`; sequential `await`s become
  sequential `match`es (a rejected `await` aborts the rest of the body,
  exactly like the exception propagation of the source).
* The filesystem state a migration run can observe or modify is captured
  structurally in `Disk`; `MigrationContext` carries the disk, the
  modified-path ledger and the backup, mirroring the workspace object of
  the source.
* External collaborators whose implementation is not part of this core
  (the `namingConverterV3` placeholder resolver, the
  `hasFunctionBot`/`hasWebAppBot` feature probes) are passed in as an
  explicit environment `Env`, per the spec's "collaborator interfaces
  consumed (not implemented by this core)".
* The outcomes of the three `MigrationContext` rollback primitives, whose
  implementation lives outside the shown sources, are supplied as an
  oracle `RollbackOps` when reasoning about the coordinator's error flow,
  so that the coordinator's own control flow (which *is* in the sources)
  can be analysed under every possible primitive outcome.
-/

set_option autoImplicit false

namespace FxCore

/-- Errors a migration run can raise.  `external` stands for any error
raised by an external primitive (filesystem, collaborator); the payload
tag only serves to distinguish concrete error values. -/
inductive FxError where
  | fileNotFound (p : String)
  | unsupportedTarget (msg : String)
  | configRead
  | external (tag : String)
deriving DecidableEq, Repr

/-! ## Coordinator error flow (`wrapRunMigration` / `rollbackMigration`)

`rollbackMigration` (projectMigratorV3.ts lines 58–62) performs three
sequential `await`s of `MigrationContext` methods.  The bodies of those
methods are not part of the shown sources, so their outcomes are an
oracle (`RollbackOps`); the definitions below embed only the control flow
that *is* in the sources.  A trace of the primitive calls actually
started is returned alongside the result, so that "operation executed /
abandoned" is expressible. -/

/-- The three rollback primitives, in the order the source calls them. -/
inductive RollbackOp where
  | cleanModifiedPaths
  | restoreBackup
  | cleanTeamsfx
deriving DecidableEq, Repr

/-- Oracle: the outcome each `MigrationContext` rollback primitive would
have if called (the primitives live outside the shown sources; per the
spec's error model any of them may fail with a filesystem error). -/
structure RollbackOps where
  cleanModifiedPaths : Except FxError Unit
  restoreBackup : Except FxError Unit
  cleanTeamsfx : Except FxError Unit

/-- Embedding of `rollbackMigration` (lines 58–62):
`await context.cleanModifiedPaths(); await context.restoreBackup();
await context.cleanTeamsfx();` — three sequential awaits with no
try/catch, so a rejection of one aborts the rest of the body.  Returns
the overall outcome and the list of primitives actually invoked. -/
def rollbackMigration (ops : RollbackOps) :
    Except FxError Unit × List RollbackOp :=
  match ops.cleanModifiedPaths with
  | .error e => (.error e, [.cleanModifiedPaths])
  | .ok _ =>
    match ops.restoreBackup with
    | .error e => (.error e, [.cleanModifiedPaths, .restoreBackup])
    | .ok _ =>
      match ops.cleanTeamsfx with
      | .error e =>
        (.error e, [.cleanModifiedPaths, .restoreBackup, .cleanTeamsfx])
      | .ok _ =>
        (.ok (), [.cleanModifiedPaths, .restoreBackup, .cleanTeamsfx])

instance {ε α : Type} [DecidableEq ε] [DecidableEq α] :
    DecidableEq (Except ε α) := fun a b =>
  match a, b with
  | .ok x, .ok y =>
    if h : x = y then .isTrue (by rw [h]) else .isFalse (by simp [h])
  | .error x, .error y =>
    if h : x = y then .isTrue (by rw [h]) else .isFalse (by simp [h])
  | .ok _, .error _ => .isFalse (by simp)
  | .error _, .ok _ => .isFalse (by simp)

/-- Outcome of one `wrapRunMigration` call: the result seen by the
caller, whether the rollback path was entered, and which rollback
primitives were started. -/
structure WrapOutcome where
  result : Except FxError Unit
  rollbackInvoked : Bool
  rollbackOpsStarted : List RollbackOp
deriving DecidableEq, Repr

/-- Embedding of `wrapRunMigration` (lines 42–56): `try { await exec(...);
await showSummaryReport(...) } catch (error) { await
rollbackMigration(context); throw error; }`.  `showSummaryReport` has an
empty body (line 64).  `execResult` is the outcome of the wrapped
migration body.  Per JavaScript semantics, if the `await
rollbackMigration(context)` inside the `catch` block itself rejects, that
rejection propagates and the `throw error` statement is never reached. -/
def wrapRunMigration (execResult : Except FxError Unit)
    (ops : RollbackOps) : WrapOutcome :=
  match execResult with
  | .ok _ => { result := .ok (), rollbackInvoked := false,
               rollbackOpsStarted := [] }
  | .error e =>
    match rollbackMigration ops with
    | (.ok _, started) =>
      { result := .error e, rollbackInvoked := true,
        rollbackOpsStarted := started }
    | (.error e', started) =>
      { result := .error e', rollbackInvoked := true,
        rollbackOpsStarted := started }

/-! ## Data model

Structural embedding of the project state a migration run can observe or
modify, and of the relevant fields of the legacy project settings. -/

/-- The fields of the legacy `projectSettings.json` that the migration
reads.  `hostType` and `activeResourcePlugins` live on
`solutionSettings` in the source and are flattened here. -/
structure ProjectSettings where
  appName : Option String
  projectId : Option String
  programmingLanguage : Option String
  hostType : String
  activeResourcePlugins : List String
  defaultFunctionName : Option String
deriving DecidableEq, Repr

/-- Content of the generated `teamsfx/settings.json`: the object literal
`{ version: "3.0.0", trackingId: oldProjectSettings.projectId }` built by
`generateSettingsJson` (lines 89–92). -/
structure GeneratedSettings where
  version : String
  trackingId : Option String
deriving DecidableEq, Repr

/-- The handlebars context assembled by `AppYmlGenerator`
(appYmlGenerator.ts).  `activePlugins` is kept as the list of active
plugin ids (the source converts the same list to a `Record<string,
boolean>`); `placeholderMappings` is the association list of resolved
placeholders, in insertion order. -/
structure HandlebarsContext where
  activePlugins : List String
  placeholderMappings : List (String × String)
  aadAppName : Option String
  teamsAppName : Option String
  appName : Option String
  isFunctionBot : Bool
  isWebAppBot : Bool
  useBotWebAppResourceId : Bool
  isTypescript : Bool
  defaultFunctionName : Option String
  environmentFolder : Option String
  projectId : Option String
  dotnetPath : Option String
deriving DecidableEq, Repr

/-- The output of a template render: the external handlebars engine is a
pure function of the template name and the context (spec §4.4), so the
rendered artifact is represented by that pair. -/
structure RenderedTemplate where
  templateName : String
  context : HandlebarsContext
deriving DecidableEq, Repr

/-- The slice of the on-disk project tree that the migration pipeline
reads or writes, keyed structurally instead of by path string.  `none`
for an input file means the file is absent (or, for the settings file,
unparseable). -/
structure Disk where
  /-- the legacy `.fx` folder exists -/
  fxFolder : Bool
  /-- content of `.fx/configs/projectSettings.json` -/
  oldSettings : Option ProjectSettings
  /-- the schema version declared in the legacy configuration -/
  versionMarker : Option String
  /-- content of `./templates/azure/provision.bicep` -/
  provisionBicep : Option String
  /-- `name` of `./aad.manifest.json`, when that file exists -/
  aadManifestName : Option String
  /-- `name.short` of the Teams app manifest, when it exists -/
  teamsManifestShortName : Option String
  /-- the generated `teamsfx` folder exists -/
  teamsfxDir : Bool
  /-- content of the generated `teamsfx/settings.json` -/
  settingsJson : Option GeneratedSettings
  /-- content of the generated `teamsfx/app.yml` -/
  appYml : Option RenderedTemplate
deriving DecidableEq, Repr

/-- External collaborators consumed but not implemented by this core
(spec §6): the placeholder resolver `namingConverterV3 (placeholder,
FileType.STATE, bicepContent)` abstracted as
`resolvePlaceholder placeholder bicepContent`, and the
`hasFunctionBot` / `hasWebAppBot` feature probes on the converted
project settings. -/
structure Env where
  resolvePlaceholder : String → String → Option String
  hasFunctionBot : ProjectSettings → Bool
  hasWebAppBot : ProjectSettings → Bool

/-- Modelled from the spec: the `MigrationContext` workspace
(migrationContext.ts is not among the shown sources).  It is bound to one
project, mediates the mutating filesystem operations, records modified
paths, and holds the backup of the legacy `.fx` folder.  `freshUuid` is
the value the uuid generator would produce in this run, supplied as an
oracle. -/
structure MigrationContext where
  disk : Disk
  /-- backup of the `.fx` folder content, once `backup` has copied it -/
  backupFx : Option (Option ProjectSettings)
  /-- ordered ledger of created/written paths, duplicates collapsed -/
  modifiedPaths : List String
  freshUuid : String
deriving DecidableEq, Repr

/-- `V2TeamsfxFolder` of migrationContext.ts: the legacy config root
`.fx` (the directory the tests back up). -/
def V2TeamsfxFolder : String := ".fx"

/-- `SettingsFolderName` from the API package: the new config dir. -/
def SettingsFolderName : String := "teamsfx"

/-- `SettingsFileName` from the API package. -/
def SettingsFileName : String := "settings.json"

/-- `MigrationVersion` (line 14). -/
def MigrationVersion : String := "2.1.0"

namespace Constants

/-- `Constants.provisionBicepPath` (line 16). -/
def provisionBicepPath : String := "./templates/azure/provision.bicep"

/-- `Constants.appYmlName` (line 17). -/
def appYmlName : String := "app.yml"

end Constants

namespace MigrationContext

/-- Modelled from the spec: record a path in the ledger, collapsing
duplicates. -/
def addModifiedPath (m : MigrationContext) (p : String) :
    MigrationContext :=
  if p ∈ m.modifiedPaths then m
  else { m with modifiedPaths := m.modifiedPaths ++ [p] }

/-- Modelled from the spec §4.2: `backup(relativeDir)` copies the
directory into the backup root if it exists and returns `true`;
returns `false` (no-op, not an error) if it does not.  The pipeline
only ever backs up the legacy `.fx` folder. -/
def backup (m : MigrationContext) (dir : String) :
    MigrationContext × Bool :=
  if dir = V2TeamsfxFolder ∧ m.disk.fxFolder then
    ({ m with backupFx := some m.disk.oldSettings }, true)
  else (m, false)

/-- Modelled from the spec §4.2: `fsEnsureDir` creates the directory if
absent and records it in the ledger when newly created.  The pipeline
only ever creates the `teamsfx` folder. -/
def fsEnsureDir (m : MigrationContext) (dir : String) :
    MigrationContext :=
  if dir = SettingsFolderName then
    if m.disk.teamsfxDir then m
    else { m.addModifiedPath dir with
           disk := { m.disk with teamsfxDir := true } }
  else m

/-- Modelled from the spec §4.2: `fsWriteFile` for the generated
`teamsfx/settings.json`, recording the path. -/
def writeSettingsJson (m : MigrationContext) (c : GeneratedSettings) :
    MigrationContext :=
  { m.addModifiedPath (SettingsFolderName ++ "/" ++ SettingsFileName) with
    disk := { m.disk with settingsJson := some c } }

/-- Modelled from the spec §4.2: `fsWriteFile` for the generated
`teamsfx/app.yml`, recording the path. -/
def writeAppYml (m : MigrationContext) (r : RenderedTemplate) :
    MigrationContext :=
  { m.addModifiedPath (SettingsFolderName ++ "/" ++ Constants.appYmlName) with
    disk := { m.disk with appYml := some r } }

end MigrationContext

/-! ## `AppYmlGenerator` (appYmlGenerator.ts) -/

/-- Helper for `strIncludes`: does the needle start at the head of the
haystack? -/
def startsWithChars : List Char → List Char → Bool
  | [], _ => true
  | _ :: _, [] => false
  | a :: as, b :: bs => a == b && startsWithChars as bs

/-- Helper for `strIncludes`: does the needle occur anywhere in the
haystack? -/
def occursWithin (n : List Char) : List Char → Bool
  | [] => n.isEmpty
  | b :: bs => startsWithChars n (b :: bs) || occursWithin n bs

/-- Substring test mirroring JavaScript `String.prototype.includes`. -/
def strIncludes (s sub : String) : Bool := occursWithin sub.toList s.toList

/-- `String.prototype.toLowerCase` mirrored on the character list. -/
def strToLower (s : String) : String := ⟨s.data.map Char.toLower⟩

/-- The error message thrown by `AppYmlGenerator.generateAppYml` when no
template exists for the hosting/language combination (lines 323–325). -/
def cannotUpgradeMessage : String :=
  "The current tooling cannot upgrade your project temporary. Please raise an issue in GitHub for your project."

/-- The `AppYmlGenerator` object: the old settings and bicep content it
is constructed with (line 107), plus the two manifest names its common
context would read from disk (`aad.manifest.json` name, Teams manifest
short name), supplied at construction in this embedding. -/
structure AppYmlGenerator where
  oldProjectSettings : ProjectSettings
  bicepContent : String
  aadAppName : Option String
  teamsAppName : Option String
deriving DecidableEq, Repr

namespace AppYmlGenerator

/-- `generateCommonHandlerbarsContext` (lines 344–386): fills the
context from the old settings, the manifests and constants.
`MetadataV3.defaultEnvironmentFolder` is the constant `"env"` of the
version metadata module. -/
def generateCommonHandlerbarsContext (g : AppYmlGenerator) :
    HandlebarsContext :=
  { activePlugins := g.oldProjectSettings.activeResourcePlugins
    placeholderMappings := []
    aadAppName := g.aadAppName
    teamsAppName := g.teamsAppName
    appName := g.oldProjectSettings.appName
    isFunctionBot := false
    isWebAppBot := false
    useBotWebAppResourceId := false
    isTypescript :=
      g.oldProjectSettings.programmingLanguage.map strToLower
        == some "typescript"
    defaultFunctionName := g.oldProjectSettings.defaultFunctionName
    environmentFolder := some "env"
    projectId := g.oldProjectSettings.projectId
    dotnetPath := some "DOTNET_PATH" }

/-- `setPlaceholderMapping` (lines 411–417): resolve one placeholder via
`namingConverterV3` against the bicep content; on success add it to
`placeholderMappings`, on failure ignore it ("ignore non-exist
placeholder"). -/
def setPlaceholderMapping (env : Env) (g : AppYmlGenerator)
    (c : HandlebarsContext) (p : String) : HandlebarsContext :=
  match env.resolvePlaceholder p g.bicepContent with
  | some v =>
    { c with placeholderMappings := c.placeholderMappings ++ [(p, v)] }
  | none => c

/-- The nine placeholders `generateAzureHandlebarsContext` resolves
(lines 400–408), in source order. -/
def azurePlaceholders : List String :=
  [ "state.fx-resource-frontend-hosting.storageResourceId"
  , "state.fx-resource-frontend-hosting.endpoint"
  , "state.fx-resource-frontend-hosting.resourceId"
  , "state.fx-resource-frontend-hosting.indexPath"
  , "state.fx-resource-bot.resourceId"
  , "state.fx-resource-bot.functionAppResourceId"
  , "state.fx-resource-bot.botWebAppResourceId"
  , "state.fx-resource-function.functionAppResourceId"
  , "state.fx-resource-function.functionEndpoint" ]

/-- `generateAzureHandlebarsContext` (lines 388–409): set the bot flags
from the converted settings (external probes), set
`useBotWebAppResourceId` when the bicep content contains
`botWebAppResourceId`, then resolve each placeholder in turn. -/
def generateAzureHandlebarsContext (env : Env) (g : AppYmlGenerator)
    (c : HandlebarsContext) : HandlebarsContext :=
  let c :=
    { c with
      isFunctionBot := env.hasFunctionBot g.oldProjectSettings
      isWebAppBot := env.hasWebAppBot g.oldProjectSettings
      useBotWebAppResourceId :=
        env.hasWebAppBot g.oldProjectSettings
          && strIncludes g.bicepContent "botWebAppResourceId" }
  azurePlaceholders.foldl (setPlaceholderMapping env g) c

/-- `AppYmlGenerator.generateAppYml` (lines 307–326): build the common
context; if the host type (lower-cased) is `azure`, build the azure
context and dispatch on the lower-cased programming language
(`javascript`/`typescript` → `js.ts.app.yml`, `csharp` →
`csharp.app.yml`, anything else falls through the `switch`); if it is
`spfx`, render `spfx.app.yml`; in every remaining case throw the
cannot-upgrade error. -/
def generateAppYml (env : Env) (g : AppYmlGenerator) :
    Except FxError RenderedTemplate :=
  let c := g.generateCommonHandlerbarsContext
  if strToLower g.oldProjectSettings.hostType = "azure" then
    let c := generateAzureHandlebarsContext env g c
    let lang := g.oldProjectSettings.programmingLanguage.map strToLower
    if lang = some "javascript" ∨ lang = some "typescript" then
      .ok ⟨"js.ts.app.yml", c⟩
    else if lang = some "csharp" then
      .ok ⟨"csharp.app.yml", c⟩
    else
      .error (.unsupportedTarget cannotUpgradeMessage)
  else if strToLower g.oldProjectSettings.hostType = "spfx" then
    .ok ⟨"spfx.app.yml", c⟩
  else
    .error (.unsupportedTarget cannotUpgradeMessage)

end AppYmlGenerator

/-! ## The migration steps and the pipeline (projectMigratorV3.ts) -/

/-- `type Migration = (context: MigrationContext) => Promise<void>`
(line 20); the promise either resolves with the mutated workspace or
rejects. -/
def Migration : Type := MigrationContext → Except FxError MigrationContext

/-- `preMigration` (lines 72–74): `await context.backup(V2TeamsfxFolder)`.
The backup primitive does not throw (spec §4.2: a missing source
directory is a `false` return, not an error). -/
def preMigration : Migration := fun m =>
  .ok (m.backup V2TeamsfxFolder).1

/-- Modelled from the spec: `loadProjectSettingsByProjectPathV2`
(projectSettingsLoader.ts is not among the shown sources).  It loads the
legacy settings file, failing when it is missing or unparseable, and —
per the spec's settings-regeneration contract and the repository's own
test ("will auto generate a new trackingId if old project does not have
project id") — fills a missing `projectId` with a freshly generated
unique identifier.  `loadProjectSettings` (lines 112–119) then unwraps
the result, throwing the error on failure. -/
def loadProjectSettings (m : MigrationContext) :
    Except FxError ProjectSettings :=
  match m.disk.oldSettings with
  | none => .error .configRead
  | some s =>
    .ok { s with projectId := some (s.projectId.getD m.freshUuid) }

/-- `generateSettingsJson` (lines 86–99): load the old settings, build
`{ version: "3.0.0", trackingId: oldProjectSettings.projectId }`, ensure
the `teamsfx` folder and write `teamsfx/settings.json`. -/
def generateSettingsJson : Migration := fun m =>
  match loadProjectSettings m with
  | .error e => .error e
  | .ok old =>
    let content : GeneratedSettings :=
      { version := "3.0.0", trackingId := old.projectId }
    .ok ((m.fsEnsureDir SettingsFolderName).writeSettingsJson content)

/-- `generateAppYml` (lines 101–110): read
`./templates/azure/provision.bicep` (unconditionally, before any host
dispatch; a missing file is a rejected read), load the old settings,
run `AppYmlGenerator.generateAppYml`, and write `teamsfx/app.yml`. -/
def generateAppYml (env : Env) : Migration := fun m =>
  match m.disk.provisionBicep with
  | none => .error (.fileNotFound Constants.provisionBicepPath)
  | some bicep =>
    match loadProjectSettings m with
    | .error e => .error e
    | .ok old =>
      let g : AppYmlGenerator :=
        ⟨old, bicep, m.disk.aadManifestName, m.disk.teamsManifestShortName⟩
      match AppYmlGenerator.generateAppYml env g with
      | .error e => .error e
      | .ok r => .ok (m.writeAppYml r)

/-- `subMigrations` (line 21): the fixed, ordered pipeline. -/
def subMigrations (env : Env) : List Migration :=
  [preMigration, generateSettingsJson, generateAppYml env]

/-- Interpreter for `migrate`'s `for (const subMigration of
subMigrations) { await subMigration(context); }` loop (lines 66–70):
runs the steps sequentially, stopping at the first rejection.  Returns
the first error (if any), the workspace state reached when the run
stopped, and how many steps were started. -/
def runMigrationsAux : List Migration → MigrationContext →
    Option FxError × MigrationContext × Nat
  | [], m => (none, m, 0)
  | step :: rest, m =>
    match step m with
    | .error e => (some e, m, 1)
    | .ok m' =>
      let (r, m'', n) := runMigrationsAux rest m'
      (r, m'', n + 1)

/-- `migrate` (lines 66–70) as the caller sees it: the final workspace
on success, the first step's error on failure. -/
def migrate (env : Env) (m : MigrationContext) :
    Except FxError MigrationContext :=
  match runMigrationsAux (subMigrations env) m with
  | (none, m', _) => .ok m'
  | (some e, _, _) => .error e

/-! ## Version oracle and middleware (projectMigratorV3.ts lines 23–40,
76–84) -/

/-- The hook context the middleware receives: the project's on-disk
state and the uuid oracle for this run. -/
structure CoreHookContext where
  disk : Disk
  freshUuid : String
deriving DecidableEq, Repr

/-- `getProjectVersion` (lines 81–84).  The source body is the hardcoded
`return "2.1.0";` under the comment `// TODO: read the real version from
project setting` — it ignores the project entirely, so in particular it
ignores `disk.versionMarker`. -/
def getProjectVersion (_ctx : CoreHookContext) : String := "2.1.0"

/-- `checkVersionForMigration` (lines 76–79): exact string equality of
the read version with `MigrationVersion`. -/
def checkVersionForMigration (ctx : CoreHookContext) : Bool :=
  getProjectVersion ctx = MigrationVersion

/-- Modelled from the spec: `MigrationContext.create` builds a fresh
workspace bound to the project, with an empty ledger and no backup. -/
def MigrationContext.create (ctx : CoreHookContext) : MigrationContext :=
  { disk := ctx.disk, backupFx := none, modifiedPaths := [],
    freshUuid := ctx.freshUuid }

/-- Modelled from the spec §4.2: `cleanModifiedPaths` deletes every
tracked path from the live tree, deepest first, then clears the ledger.
Deleting `teamsfx` only removes the directory once its tracked files are
gone. -/
def MigrationContext.removePath (d : Disk) (p : String) : Disk :=
  if p = SettingsFolderName ++ "/" ++ SettingsFileName then
    { d with settingsJson := none }
  else if p = SettingsFolderName ++ "/" ++ Constants.appYmlName then
    { d with appYml := none }
  else if p = SettingsFolderName then
    if d.settingsJson = none ∧ d.appYml = none then
      { d with teamsfxDir := false }
    else d
  else d

/-- Modelled from the spec §4.2: delete all tracked paths (deepest
first, i.e. reverse insertion order) and clear the ledger. -/
def MigrationContext.cleanModifiedPaths (m : MigrationContext) :
    MigrationContext :=
  { m with
    disk := m.modifiedPaths.reverse.foldl MigrationContext.removePath m.disk
    modifiedPaths := [] }

/-- Modelled from the spec §4.2: `restoreBackup` copies the backed-up
`.fx` folder back over the live tree; it does not clear the ledger. -/
def MigrationContext.restoreBackup (m : MigrationContext) :
    MigrationContext :=
  match m.backupFx with
  | none => m
  | some fx =>
    { m with disk := { m.disk with fxFolder := true, oldSettings := fx } }

/-- Modelled from the spec §4.2: `cleanTeamsfx` drops the working
backup. -/
def MigrationContext.cleanTeamsfx (m : MigrationContext) :
    MigrationContext :=
  { m with backupFx := none }

/-- The state effect of `rollbackMigration` (lines 58–62) when every
primitive succeeds: clean the tracked paths, restore the backup, drop
the backup. -/
def rollbackMigrationState (m : MigrationContext) : MigrationContext :=
  (m.cleanModifiedPaths.restoreBackup).cleanTeamsfx

/-- What one invocation of the middleware did: whether `next()` ran,
whether `ctx.result` was set to `ok(undefined)`, the error the
middleware re-threw (if any), and the final on-disk state. -/
structure MWOutcome where
  nextCalled : Bool
  resultSetOk : Bool
  thrown : Option FxError
  finalDisk : Disk
deriving DecidableEq, Repr

/-- `ProjectMigratorMWV3` (lines 23–40).  `checkMethod` and
`checkUserTasks` (projectMigrator.ts, not among the shown sources) are
supplied as oracle booleans.  When the version and method checks pass:
if the user-task check fails, set `ctx.result = ok(undefined)` and
return; otherwise create the workspace, run `wrapRunMigration(context,
migrate)` — which on step failure rolls the workspace back and re-throws
the step error — and set `ctx.result = ok(undefined)`.  Otherwise call
`next()`. -/
def ProjectMigratorMWV3 (env : Env) (ctx : CoreHookContext)
    (checkMethod checkUserTasks : Bool) : MWOutcome :=
  if checkVersionForMigration ctx && checkMethod then
    if !checkUserTasks then
      { nextCalled := false, resultSetOk := true, thrown := none,
        finalDisk := ctx.disk }
    else
      let m0 := MigrationContext.create ctx
      match runMigrationsAux (subMigrations env) m0 with
      | (none, m', _) =>
        { nextCalled := false, resultSetOk := true, thrown := none,
          finalDisk := m'.disk }
      | (some e, m', _) =>
        { nextCalled := false, resultSetOk := false, thrown := some e,
          finalDisk := (rollbackMigrationState m').disk }
  else
    { nextCalled := true, resultSetOk := false, thrown := none,
      finalDisk := ctx.disk }

/-! ## Concrete fixtures used by witnesses -/

/-- Environment in which no placeholder resolves and no bot feature is
detected. -/
def envNone : Env :=
  { resolvePlaceholder := fun _ _ => none
    hasFunctionBot := fun _ => false
    hasWebAppBot := fun _ => false }

/-- A representative legacy Azure/typescript project's settings. -/
def happySettings : ProjectSettings :=
  { appName := some "my-app"
    projectId := some "abc-123"
    programmingLanguage := some "typescript"
    hostType := "Azure"
    activeResourcePlugins :=
      ["fx-resource-frontend-hosting", "fx-resource-aad-app-for-teams"]
    defaultFunctionName := none }

/-- On-disk state of the representative project before migration. -/
def happyDisk : Disk :=
  { fxFolder := true
    oldSettings := some happySettings
    versionMarker := some "2.1.0"
    provisionBicep := some "param x string"
    aadManifestName := none
    teamsManifestShortName := none
    teamsfxDir := false
    settingsJson := none
    appYml := none }

/-- Hook context of the representative project. -/
def happyCtx : CoreHookContext := { disk := happyDisk, freshUuid := "uuid-1" }

/-- Fresh workspace on the representative project. -/
def happyM : MigrationContext := MigrationContext.create happyCtx

/-- A project whose legacy settings file is missing, so that
settings loading fails. -/
def brokenM : MigrationContext :=
  { disk := { happyDisk with oldSettings := none }
    backupFx := none, modifiedPaths := [], freshUuid := "uuid-2" }

/-- A project whose legacy settings exist but carry no `projectId`. -/
def noIdM : MigrationContext :=
  { disk := { happyDisk with
      oldSettings := some { happySettings with projectId := none } }
    backupFx := none, modifiedPaths := [], freshUuid := "uuid-3" }

/-! ## C1 — error propagation of `wrapRunMigration` -/

/-- C1 counterexample.  The claim says an error raised during the
rollback never masks or replaces the original step error.  In the
source, `wrapRunMigration`'s `catch` block runs `await
rollbackMigration(context)` before `throw error`; if the rollback
rejects, that rejection propagates and replaces the original error.
At this concrete input the caller observes the rollback error, not the
step error. -/
theorem wrapRunMigration_rollback_error_masks_step_error :
    (wrapRunMigration (.error (.external "step-failed"))
        ⟨.error (.external "rollback-failed"), .ok (), .ok ()⟩).result
      = .error (.external "rollback-failed") ∧
    FxError.external "rollback-failed" ≠ FxError.external "step-failed" := by
  decide

/-- C1 (amended): if any migration step throws, the coordinator invokes
the workspace rollback; it propagates the original step error to the
caller provided the rollback completes without an error, and when the
rollback itself throws, the rollback's error propagates to the caller in
place of the original. -/
theorem wrapRunMigration_propagates_original_unless_rollback_throws
    (e : FxError) (ops : RollbackOps) :
    (wrapRunMigration (.error e) ops).rollbackInvoked = true ∧
    ((rollbackMigration ops).1 = .ok () →
      (wrapRunMigration (.error e) ops).result = .error e) ∧
    (∀ e', (rollbackMigration ops).1 = .error e' →
      (wrapRunMigration (.error e) ops).result = .error e') ∧
    (∀ u, (wrapRunMigration (.ok u) ops).rollbackInvoked = false ∧
      (wrapRunMigration (.ok u) ops).result = .ok ()) := by
  rcases h : rollbackMigration ops with ⟨r, started⟩
  rcases r with e' | u <;>
    simp [wrapRunMigration, h]

/-- Witness for the amended C1 theorem at concrete inputs. -/
theorem wrapRunMigration_propagates_original_witness :
    (wrapRunMigration (.error (.external "boom"))
        ⟨.ok (), .ok (), .ok ()⟩).rollbackInvoked = true ∧
    (wrapRunMigration (.error (.external "boom"))
        ⟨.ok (), .ok (), .ok ()⟩).result = .error (.external "boom") :=
  ⟨(wrapRunMigration_propagates_original_unless_rollback_throws
      (.external "boom") ⟨.ok (), .ok (), .ok ()⟩).1,
   (wrapRunMigration_propagates_original_unless_rollback_throws
      (.external "boom") ⟨.ok (), .ok (), .ok ()⟩).2.1 (by decide)⟩

/-! ## C2 — order and abort behaviour of `rollbackMigration` -/

/-- C2 counterexample.  The claim says a failure in one of the three
rollback operations does not abandon the remaining operations.  In the
source the three calls are sequential `await`s with no error handling,
so when `cleanModifiedPaths` rejects, neither `restoreBackup` nor
`cleanTeamsfx` is started. -/
theorem rollbackMigration_abandons_rest_on_failure :
    (rollbackMigration
        ⟨.error (.external "EPERM"), .ok (), .ok ()⟩).2
      = [RollbackOp.cleanModifiedPaths] ∧
    RollbackOp.restoreBackup ∉
      (rollbackMigration
        ⟨.error (.external "EPERM"), .ok (), .ok ()⟩).2 ∧
    RollbackOp.cleanTeamsfx ∉
      (rollbackMigration
        ⟨.error (.external "EPERM"), .ok (), .ok ()⟩).2 := by
  decide

/-- C2 (amended): the rollback executes `cleanModifiedPaths()`, then
`restoreBackup()`, then `cleanTeamsfx()`, in that exact order — the
trace is always a prefix of that sequence, and all three run when all
succeed — but the sequence is not best-effort: the first failing
operation aborts the remaining operations and its error propagates. -/
theorem rollbackMigration_order_and_abort (ops : RollbackOps) :
    (∃ t, (rollbackMigration ops).2 ++ t =
      [RollbackOp.cleanModifiedPaths, RollbackOp.restoreBackup,
       RollbackOp.cleanTeamsfx]) ∧
    (ops.cleanModifiedPaths = .ok () → ops.restoreBackup = .ok () →
      ops.cleanTeamsfx = .ok () →
      rollbackMigration ops = (.ok (),
        [RollbackOp.cleanModifiedPaths, RollbackOp.restoreBackup,
         RollbackOp.cleanTeamsfx])) ∧
    (∀ e, ops.cleanModifiedPaths = .error e →
      rollbackMigration ops = (.error e, [RollbackOp.cleanModifiedPaths])) ∧
    (∀ e, ops.cleanModifiedPaths = .ok () → ops.restoreBackup = .error e →
      rollbackMigration ops = (.error e,
        [RollbackOp.cleanModifiedPaths, RollbackOp.restoreBackup])) ∧
    (∀ e, ops.cleanModifiedPaths = .ok () → ops.restoreBackup = .ok () →
      ops.cleanTeamsfx = .error e →
      rollbackMigration ops = (.error e,
        [RollbackOp.cleanModifiedPaths, RollbackOp.restoreBackup,
         RollbackOp.cleanTeamsfx])) := by
  obtain ⟨c, r, t⟩ := ops
  rcases c with ec | uc <;> rcases r with er | ur <;> rcases t with et | ut <;>
    simp [rollbackMigration]

/-- Witness for the amended C2 theorem: a failing `restoreBackup` at a
concrete input aborts before `cleanTeamsfx`. -/
theorem rollbackMigration_order_and_abort_witness :
    rollbackMigration ⟨.ok (), .error (.external "EACCES"), .ok ()⟩ =
      (.error (.external "EACCES"),
       [RollbackOp.cleanModifiedPaths, RollbackOp.restoreBackup]) :=
  (rollbackMigration_order_and_abort
      ⟨.ok (), .error (.external "EACCES"), .ok ()⟩).2.2.2.1
    (.external "EACCES") rfl rfl

/-! ## C3 — the fixed three-step pipeline is sequential and fail-fast -/

/-- C3: `migrate` runs exactly the fixed pipeline `[preMigration,
generateSettingsJson, generateAppYml]` in order, strictly sequentially
(each step receives the state produced by the previous one), and a
failure in any step aborts the remaining steps immediately: when the
settings-regeneration step fails only two steps were started, when the
app.yml step fails all three were started but none after it exists, and
when all succeed the pipeline's result is the third step's output. -/
theorem migrate_pipeline_sequential_fail_fast (env : Env)
    (m : MigrationContext) :
    subMigrations env = [preMigration, generateSettingsJson,
      generateAppYml env] ∧
    (∀ e, generateSettingsJson (m.backup V2TeamsfxFolder).1 = .error e →
      runMigrationsAux (subMigrations env) m =
        (some e, (m.backup V2TeamsfxFolder).1, 2) ∧
      migrate env m = .error e) ∧
    (∀ m2 e, generateSettingsJson (m.backup V2TeamsfxFolder).1 = .ok m2 →
      generateAppYml env m2 = .error e →
      runMigrationsAux (subMigrations env) m = (some e, m2, 3) ∧
      migrate env m = .error e) ∧
    (∀ m2 m3, generateSettingsJson (m.backup V2TeamsfxFolder).1 = .ok m2 →
      generateAppYml env m2 = .ok m3 →
      runMigrationsAux (subMigrations env) m = (none, m3, 3) ∧
      migrate env m = .ok m3) := by
  refine ⟨rfl, ?_, ?_, ?_⟩
  · intro e h
    simp [runMigrationsAux, subMigrations, preMigration, migrate, h]
  · intro m2 e h1 h2
    simp [runMigrationsAux, subMigrations, preMigration, migrate, h1, h2]
  · intro m2 m3 h1 h2
    simp [runMigrationsAux, subMigrations, preMigration, migrate, h1, h2]

/-- Witness for C3 at concrete inputs: on a project with a missing
legacy settings file the pipeline stops after two steps with the
loader's error, and on the representative project all three steps run
and the pipeline succeeds. -/
theorem migrate_pipeline_witness :
    migrate envNone brokenM = .error .configRead ∧
    runMigrationsAux (subMigrations envNone) brokenM =
      (some .configRead, (brokenM.backup V2TeamsfxFolder).1, 2) ∧
    (migrate envNone happyM).isOk = true := by
  have h2 := (migrate_pipeline_sequential_fail_fast envNone brokenM).2.1
      .configRead (by decide)
  exact ⟨h2.2, h2.1, by decide⟩

/-! ## C4 — content of the regenerated settings file -/

/-- C4: `generateSettingsJson` succeeds on any project whose legacy
settings load, and writes `teamsfx/settings.json` with content exactly
`{ version := "3.0.0", trackingId := t }`: `t` is the old `projectId`
whenever present, and otherwise the freshly generated identifier of this
run, which is non-empty rather than absent.  (Uses the spec-modelled
loader: `loadProjectSettingsByProjectPathV2` fabricates a fresh unique
identifier when the legacy settings carry none.) -/
theorem generateSettingsJson_content (m : MigrationContext)
    (s : ProjectSettings) (hs : m.disk.oldSettings = some s)
    (hu : m.freshUuid ≠ "") :
    ∃ m', generateSettingsJson m = .ok m' ∧
      m'.disk.settingsJson =
        some { version := "3.0.0", trackingId := some (s.projectId.getD m.freshUuid) } ∧
      (∀ x, s.projectId = some x →
        m'.disk.settingsJson =
          some { version := "3.0.0", trackingId := some x }) ∧
      (s.projectId = none →
        ∃ t, m'.disk.settingsJson =
            some { version := "3.0.0", trackingId := some t } ∧
          t ≠ "") := by
  refine ⟨(m.fsEnsureDir SettingsFolderName).writeSettingsJson
      { version := "3.0.0", trackingId := some (s.projectId.getD m.freshUuid) },
    ?_, ?_, ?_, ?_⟩
  · simp [generateSettingsJson, loadProjectSettings, hs]
  · simp [MigrationContext.writeSettingsJson]
  · intro x hx
    simp [MigrationContext.writeSettingsJson, hx]
  · intro hx
    exact ⟨m.freshUuid, by simp [MigrationContext.writeSettingsJson, hx], hu⟩

/-- Witness for C4 at concrete inputs: the representative project keeps
its `projectId` as `trackingId`, and a project without `projectId` gets
the freshly generated non-empty identifier. -/
theorem generateSettingsJson_content_witness :
    (∃ m', generateSettingsJson happyM = .ok m' ∧
      m'.disk.settingsJson = some { version := "3.0.0", trackingId := some "abc-123" }) ∧
    (∃ m', generateSettingsJson noIdM = .ok m' ∧
      m'.disk.settingsJson = some { version := "3.0.0", trackingId := some "uuid-3" } ∧
      "uuid-3" ≠ "") := by
  constructor
  · obtain ⟨m', hok, _, hx, _⟩ :=
      generateSettingsJson_content happyM happySettings rfl (by decide)
    exact ⟨m', hok, hx "abc-123" rfl⟩
  · obtain ⟨m', hok, hset, _, _⟩ :=
      generateSettingsJson_content noIdM
        { happySettings with projectId := none } rfl (by decide)
    exact ⟨m', hok, hset, by decide⟩

/-! ## C5 — the version gate does not read the declared version -/

/-- A project whose declared schema version is `1.0.0`, not the
upgradable `2.1.0`. -/
def diskV1 : Disk := { happyDisk with versionMarker := some "1.0.0" }

/-- Hook context of the version-`1.0.0` project. -/
def ctxV1 : CoreHookContext := { disk := diskV1, freshUuid := "uuid-4" }

/-- C5 failing input.  The claim says running the migrator against a
project whose declared version is not the upgradable constant is a
success no-op with zero filesystem changes.  The source's
`getProjectVersion` is the hardcoded stub `return "2.1.0"` (its comment:
`// TODO: read the real version from project setting`), so
`checkVersionForMigration` passes for a project declaring `1.0.0`, the
middleware does not call `next()`, and the migration runs and changes
the filesystem (it writes `teamsfx/settings.json`, among others). -/
theorem projectMigrator_runs_on_non_upgradable_version :
    ctxV1.disk.versionMarker = some "1.0.0" ∧
    MigrationVersion = "2.1.0" ∧
    checkVersionForMigration ctxV1 = true ∧
    (ProjectMigratorMWV3 envNone ctxV1 true true).nextCalled = false ∧
    (ProjectMigratorMWV3 envNone ctxV1 true true).finalDisk.settingsJson
      ≠ none ∧
    (ProjectMigratorMWV3 envNone ctxV1 true true).finalDisk ≠ ctxV1.disk := by
  decide

/-! ## C6 — template selection of `AppYmlGenerator.generateAppYml` -/

/-- Modelled from the spec: the deterministic template-selection table —
a pure function of the target hosting type and programming language,
`none` for the combinations that have no template.  The claim's theorem
compares `AppYmlGenerator.generateAppYml` against this table. -/
def templateFor (hostType : String) (lang : Option String) :
    Option String :=
  if strToLower hostType = "azure" then
    let l := lang.map strToLower
    if l = some "javascript" ∨ l = some "typescript" then
      some "js.ts.app.yml"
    else if l = some "csharp" then some "csharp.app.yml"
    else none
  else if strToLower hostType = "spfx" then some "spfx.app.yml"
  else none

/-- C6: the template `AppYmlGenerator.generateAppYml` renders is exactly
`templateFor` of the project's hosting type and programming language —
a deterministic function of that pair — and for every combination with
no template (host type neither azure nor spfx, or azure host with a
language other than javascript/typescript/csharp) it fails with the
unsupported-target error whose message tells the user the project cannot
be upgraded automatically. -/
theorem generateAppYml_template_selection (env : Env)
    (g : AppYmlGenerator) :
    (∀ t, (∃ r, AppYmlGenerator.generateAppYml env g = .ok r ∧
        r.templateName = t) ↔
      templateFor g.oldProjectSettings.hostType
        g.oldProjectSettings.programmingLanguage = some t) ∧
    (templateFor g.oldProjectSettings.hostType
        g.oldProjectSettings.programmingLanguage = none →
      AppYmlGenerator.generateAppYml env g =
        .error (.unsupportedTarget cannotUpgradeMessage)) ∧
    strIncludes cannotUpgradeMessage "cannot upgrade your project"
      = true := by
  refine ⟨?_, ?_, by decide⟩
  · intro t
    simp only [AppYmlGenerator.generateAppYml, templateFor]
    split_ifs <;> simp [RenderedTemplate.mk.injEq, eq_comm]
  · intro h
    simp only [AppYmlGenerator.generateAppYml, templateFor] at h ⊢
    split_ifs at h ⊢ <;> simp_all

/-- Settings of an SPFx-hosted project. -/
def spfxSettings : ProjectSettings := { happySettings with hostType := "SPFx" }

/-- Settings of a project with a hosting/language combination that has
no template. -/
def badHostSettings : ProjectSettings :=
  { happySettings with hostType := "Kubernetes", programmingLanguage := some "python" }

/-- Witness for C6 at concrete inputs: an SPFx project selects
`spfx.app.yml`; a project hosted on neither azure nor spfx fails with
the unsupported-target error. -/
theorem generateAppYml_template_selection_witness :
    (∃ r, AppYmlGenerator.generateAppYml envNone
        ⟨spfxSettings, "", none, none⟩ = .ok r ∧
      r.templateName = "spfx.app.yml") ∧
    AppYmlGenerator.generateAppYml envNone
        ⟨badHostSettings, "", none, none⟩ =
      .error (.unsupportedTarget cannotUpgradeMessage) := by
  constructor
  · exact ((generateAppYml_template_selection envNone
      ⟨spfxSettings, "", none, none⟩).1 "spfx.app.yml").mpr (by decide)
  · exact (generateAppYml_template_selection envNone
      ⟨badHostSettings, "", none, none⟩).2.1 (by decide)

/-! ## C7 — the version oracle never fails and never reads -/

/-- A project tree with no recognizable version marker (and no legacy
configuration at all). -/
def diskNoMarker : Disk :=
  { fxFolder := false, oldSettings := none, versionMarker := none,
    provisionBicep := none, aadManifestName := none,
    teamsManifestShortName := none, teamsfxDir := false,
    settingsJson := none, appYml := none }

/-- C7 failing input.  The claim says the version oracle reads the
project's declared schema version and fails with a `ConfigReadError`
when no recognizable version marker exists.  The source's
`getProjectVersion` is the hardcoded stub `return "2.1.0"` (marked
`TODO` in the source): it succeeds with `"2.1.0"` on a project with no
version marker at all, and — as its type already shows — it returns the
same constant for every project, reading nothing.  (It indeed never
mutates anything; that part of the claim holds.) -/
theorem getProjectVersion_is_hardcoded_stub :
    getProjectVersion { disk := diskNoMarker, freshUuid := "uuid-5" }
      = "2.1.0" ∧
    (∀ ctx : CoreHookContext, getProjectVersion ctx = "2.1.0") :=
  ⟨rfl, fun _ => rfl⟩

/-! ## C8 — per-placeholder resolution is best-effort -/

/-- Folding `setPlaceholderMapping` over a placeholder list appends to
the context exactly the pairs whose resolution succeeds, in order. -/
theorem foldl_setPlaceholderMapping (env : Env) (g : AppYmlGenerator)
    (L : List String) (c : HandlebarsContext) :
    (L.foldl (AppYmlGenerator.setPlaceholderMapping env g)
        c).placeholderMappings =
      c.placeholderMappings ++ L.filterMap
        (fun p => (env.resolvePlaceholder p g.bicepContent).map
          (fun v => (p, v))) := by
  induction L generalizing c with
  | nil => simp
  | cons p L ih =>
    simp only [List.foldl_cons, List.filterMap_cons]
    cases h : env.resolvePlaceholder p g.bicepContent with
    | none => simp [AppYmlGenerator.setPlaceholderMapping, h, ih]
    | some v =>
      simp [AppYmlGenerator.setPlaceholderMapping, h, ih]

/-- C8: the rendering context built by
`generateAzureHandlebarsContext` contains exactly the placeholders whose
resolution against the bicep content succeeds — every successfully
resolved placeholder of the list is present with its resolved value,
every placeholder whose resolution fails is absent — and rendering still
proceeds: whenever the hosting/language combination has a template,
`generateAppYml` returns it whatever the resolver fails on. -/
theorem generateAzureContext_placeholder_best_effort (env : Env)
    (g : AppYmlGenerator) :
    (AppYmlGenerator.generateAzureHandlebarsContext env g
        g.generateCommonHandlerbarsContext).placeholderMappings =
      AppYmlGenerator.azurePlaceholders.filterMap
        (fun p => (env.resolvePlaceholder p g.bicepContent).map
          (fun v => (p, v))) ∧
    (∀ p v, p ∈ AppYmlGenerator.azurePlaceholders →
      env.resolvePlaceholder p g.bicepContent = some v →
      (p, v) ∈ (AppYmlGenerator.generateAzureHandlebarsContext env g
        g.generateCommonHandlerbarsContext).placeholderMappings) ∧
    (∀ p, env.resolvePlaceholder p g.bicepContent = none →
      ∀ v, (p, v) ∉ (AppYmlGenerator.generateAzureHandlebarsContext env g
        g.generateCommonHandlerbarsContext).placeholderMappings) ∧
    (∀ t, templateFor g.oldProjectSettings.hostType
        g.oldProjectSettings.programmingLanguage = some t →
      ∃ r, AppYmlGenerator.generateAppYml env g = .ok r) := by
  have hmap :
      (AppYmlGenerator.generateAzureHandlebarsContext env g
        g.generateCommonHandlerbarsContext).placeholderMappings =
      AppYmlGenerator.azurePlaceholders.filterMap
        (fun p => (env.resolvePlaceholder p g.bicepContent).map
          (fun v => (p, v))) := by
    simp [AppYmlGenerator.generateAzureHandlebarsContext,
      AppYmlGenerator.generateCommonHandlerbarsContext,
      foldl_setPlaceholderMapping]
  refine ⟨hmap, ?_, ?_, ?_⟩
  · intro p v hp hres
    rw [hmap]
    exact List.mem_filterMap.mpr ⟨p, hp, by simp [hres]⟩
  · intro p hres v hmem
    rw [hmap] at hmem
    obtain ⟨a, _, hf⟩ := List.mem_filterMap.mp hmem
    obtain ⟨v', hv', heq⟩ := Option.map_eq_some'.mp hf
    obtain ⟨rfl, rfl⟩ := Prod.mk.injEq .. ▸ heq
    simp [hres] at hv'
  · intro t ht
    simp only [AppYmlGenerator.generateAppYml, templateFor] at ht ⊢
    split_ifs at ht ⊢ <;> simp_all

/-- Resolver that only knows the frontend-hosting storage resource id. -/
def envPartial : Env :=
  { resolvePlaceholder := fun p _ =>
      if p = "state.fx-resource-frontend-hosting.storageResourceId" then
        some "/subscriptions/sub1/storage1"
      else none
    hasFunctionBot := fun _ => false
    hasWebAppBot := fun _ => false }

/-- The generator on the representative project's settings and bicep. -/
def gHappy : AppYmlGenerator := ⟨happySettings, "param x string", none, none⟩

/-- Witness for C8 at a concrete input: with a resolver that resolves
one placeholder and fails on the rest, the resolved one is present, an
unresolved one is absent, and generation still succeeds. -/
theorem generateAzureContext_placeholder_witness :
    ("state.fx-resource-frontend-hosting.storageResourceId",
        "/subscriptions/sub1/storage1") ∈
      (AppYmlGenerator.generateAzureHandlebarsContext envPartial gHappy
        gHappy.generateCommonHandlerbarsContext).placeholderMappings ∧
    (∀ v, ("state.fx-resource-frontend-hosting.endpoint", v) ∉
      (AppYmlGenerator.generateAzureHandlebarsContext envPartial gHappy
        gHappy.generateCommonHandlerbarsContext).placeholderMappings) ∧
    (∃ r, AppYmlGenerator.generateAppYml envPartial gHappy = .ok r) := by
  have h := generateAzureContext_placeholder_best_effort envPartial gHappy
  exact ⟨h.2.1 _ _ (by decide) (by decide),
    fun v => h.2.2.1 _ (by decide) v,
    h.2.2.2 "js.ts.app.yml" (by decide)⟩

/-! ## C9 — the middleware's result and `next()` discipline -/

/-- C9: `next()` is invoked exactly when the version or method check
fails (i.e. only when no migration is needed); and whenever all three
checks pass and the migration run completes without throwing, the
middleware sets the hook result to `ok(undefined)` and returns without
calling `next()`, so the wrapped operation does not execute in that
invocation. -/
theorem projectMigratorMW_result_and_next (env : Env)
    (ctx : CoreHookContext) (checkMethod checkUserTasks : Bool) :
    ((ProjectMigratorMWV3 env ctx checkMethod checkUserTasks).nextCalled
        = true ↔
      (checkVersionForMigration ctx && checkMethod) = false) ∧
    (checkVersionForMigration ctx = true → checkMethod = true →
      checkUserTasks = true →
      (ProjectMigratorMWV3 env ctx checkMethod checkUserTasks).nextCalled
        = false ∧
      ((ProjectMigratorMWV3 env ctx checkMethod checkUserTasks).thrown
          = none →
        (ProjectMigratorMWV3 env ctx checkMethod
          checkUserTasks).resultSetOk = true)) := by
  rcases hrun : runMigrationsAux (subMigrations env)
      (MigrationContext.create ctx) with ⟨r, m', n⟩
  cases hv : checkVersionForMigration ctx <;>
    cases checkMethod <;> cases checkUserTasks <;>
      rcases r with _ | e <;>
        simp [ProjectMigratorMWV3, hv, hrun]

/-- Witness for C9 at a concrete input: on the representative project
with all checks passing, the middleware does not call `next()` and sets
the ok result. -/
theorem projectMigratorMW_result_and_next_witness :
    (ProjectMigratorMWV3 envNone happyCtx true true).nextCalled = false ∧
    (ProjectMigratorMWV3 envNone happyCtx true true).resultSetOk = true := by
  have h := (projectMigratorMW_result_and_next envNone happyCtx
    true true).2 (by decide) rfl rfl
  exact ⟨h.1, h.2 (by decide)⟩

/-! ## C10 — `generateAppYml` reads the bicep file unconditionally -/

/-- `backup` never changes the live tree or the uuid oracle. -/
theorem backup_preserves_disk (m : MigrationContext) (dir : String) :
    ((m.backup dir).1).disk = m.disk ∧
    ((m.backup dir).1).freshUuid = m.freshUuid := by
  unfold MigrationContext.backup
  split <;> simp

/-- `generateSettingsJson` never touches the bicep input. -/
theorem generateSettingsJson_preserves_bicep (m m2 : MigrationContext)
    (h : generateSettingsJson m = .ok m2) :
    m2.disk.provisionBicep = m.disk.provisionBicep := by
  unfold generateSettingsJson at h
  rcases hl : loadProjectSettings m with e | old <;> rw [hl] at h
  · exact absurd h (by simp)
  · obtain rfl : ((m.fsEnsureDir SettingsFolderName).writeSettingsJson
        { version := "3.0.0", trackingId := old.projectId }) = m2 := by
      simpa using h
    simp [MigrationContext.writeSettingsJson, MigrationContext.fsEnsureDir,
      MigrationContext.addModifiedPath]
    split_ifs <;> simp

/-- C10: the pipeline-definition step `generateAppYml` fails with a
file-not-found error on `./templates/azure/provision.bicep` for every
project in which that file is absent — whatever the host type, since the
read happens before any host dispatch — and on such a project (whose
earlier steps succeed) the whole `migrate` run fails with that error,
upon which the coordinator's wrapper invokes the rollback. -/
theorem generateAppYml_requires_bicep (env : Env) (m : MigrationContext)
    (hb : m.disk.provisionBicep = none) :
    generateAppYml env m =
      .error (.fileNotFound Constants.provisionBicepPath) ∧
    (∀ m2, generateSettingsJson (m.backup V2TeamsfxFolder).1 = .ok m2 →
      migrate env m =
        .error (.fileNotFound Constants.provisionBicepPath)) ∧
    (∀ ops, (wrapRunMigration
        (.error (.fileNotFound Constants.provisionBicepPath))
        ops).rollbackInvoked = true) := by
  have h1 : generateAppYml env m =
      .error (.fileNotFound Constants.provisionBicepPath) := by
    simp [generateAppYml, hb]
  refine ⟨h1, ?_, ?_⟩
  · intro m2 h2
    have hb2 : m2.disk.provisionBicep = none := by
      rw [generateSettingsJson_preserves_bicep _ _ h2,
        (backup_preserves_disk m V2TeamsfxFolder).1, hb]
    have h3 : generateAppYml env m2 =
        .error (.fileNotFound Constants.provisionBicepPath) := by
      simp [generateAppYml, hb2]
    simp [migrate, runMigrationsAux, subMigrations, preMigration, h2, h3]
  · intro ops
    rcases hr : rollbackMigration ops with ⟨r, started⟩
    rcases r with e | u <;> simp [wrapRunMigration, hr]

/-- On-disk state of an SPFx project with no azure bicep file. -/
def spfxNoBicepDisk : Disk :=
  { happyDisk with oldSettings := some spfxSettings, provisionBicep := none }

/-- Workspace on the SPFx project with no azure bicep file. -/
def spfxNoBicepM : MigrationContext :=
  { disk := spfxNoBicepDisk, backupFx := none, modifiedPaths := [],
    freshUuid := "uuid-6" }

/-- Witness for C10 at a concrete input: an SPFx project (whose template
uses no azure bicep) without `./templates/azure/provision.bicep` makes
the step, and the whole migration, fail with the file-not-found error,
and the coordinator's wrapper then invokes the rollback. -/
theorem generateAppYml_requires_bicep_witness :
    generateAppYml envNone spfxNoBicepM =
      .error (.fileNotFound Constants.provisionBicepPath) ∧
    migrate envNone spfxNoBicepM =
      .error (.fileNotFound Constants.provisionBicepPath) ∧
    (wrapRunMigration (.error (.fileNotFound Constants.provisionBicepPath))
      ⟨.ok (), .ok (), .ok ()⟩).rollbackInvoked = true := by
  have h := generateAppYml_requires_bicep envNone spfxNoBicepM rfl
  exact ⟨h.1,
    h.2.1 (((spfxNoBicepM.backup V2TeamsfxFolder).1.fsEnsureDir
        SettingsFolderName).writeSettingsJson
      { version := "3.0.0", trackingId := some "abc-123" }) (by decide),
    h.2.2 ⟨.ok (), .ok (), .ok ()⟩⟩

end FxCore
